import Mathlib

/-!
Verification of the NHL data-scraper pipeline (src/nhl_powerbi_project/main.py).

Shallow embedding conventions:
* JSON values are modelled by the inductive `Json`; numbers are `Int`
  (the subtraction on line 73 behaves identically for floats).
* Python exceptions are modelled by `Except String`; the error string names
  the Python exception that would be raised.
* The HTTP layer (`requests.get`, URL construction, `urllib.parse.quote`,
  `time.sleep`, printing) is external plumbing.  Each fetched payload is
  supplied as an `Option Json` (`none` = `fetch_json` returned `None`), and
  per-team / per-player fetches are supplied as oracles keyed by the value
  the code interpolates into the URL (team abbreviation, player id).
* Python dicts are association lists preserving insertion order; `setKV`
  models `d[k] = v` / `dict.update` (overwrite in place, else append).
* Iteration in `for` loops and `+` concatenation are modelled on JSON
  arrays only; the claims only exercise array-shaped collections.
-/

inductive Json where
  | null
  | bool (b : Bool)
  | num (n : Int)
  | str (s : String)
  | arr (elems : List Json)
  | obj (fields : List (String × Json))

/-- Python truthiness of a parsed-JSON value (`if data:`). -/
def Json.truthy : Json → Bool
  | .null => false
  | .bool b => b
  | .num n => n != 0
  | .str s => s != ""
  | .arr xs => !xs.isEmpty
  | .obj kvs => !kvs.isEmpty

/-- A row of one of the output tables: a Python dict in insertion order. -/
abbrev Row := List (String × Json)

/-- Python `d[k]` on an arbitrary value: `KeyError` when the key is absent,
`TypeError` when the value is not a dict. -/
def pyIndex (j : Json) (k : String) : Except String Json :=
  match j with
  | .obj kvs =>
    match kvs.lookup k with
    | some v => .ok v
    | none => .error ("KeyError: " ++ k)
  | _ => .error "TypeError: not a dict"

/-- Python `d.get(k, default)`: `AttributeError` when `d` is not a dict. -/
def pyGetD (j : Json) (k : String) (d : Json) : Except String Json :=
  match j with
  | .obj kvs => .ok ((kvs.lookup k).getD d)
  | _ => .error "AttributeError: get"

/-- Python `d.get(k)` (absent key yields `None`). -/
def pyGet (j : Json) (k : String) : Except String Json := pyGetD j k .null

/-- Total lookup-with-default on a dict that is already known to be a dict. -/
def getD (kvs : List (String × Json)) (k : String) (d : Json) : Json :=
  (kvs.lookup k).getD d

/-- Python `x - y` on fetched JSON values: defined on numbers, otherwise
`TypeError` (in particular `None - n` and `n - None` raise). -/
def pySub : Json → Json → Except String Json
  | .num a, .num b => .ok (.num (a - b))
  | _, _ => .error "TypeError: unsupported operand type for -"

/-- Python `xs[0]`: first element of an array, `IndexError` when empty.
The claims only index arrays, so other values are mapped to an error
(as Python does for dicts without key `0`). -/
def pyIndex0 : Json → Except String Json
  | .arr (x :: _) => .ok x
  | .arr [] => .error "IndexError: list index out of range"
  | _ => .error "TypeError: not indexable"

/-- Iterating a fetched collection in a `for` loop / `+` concatenation:
the claims only iterate arrays, so other values are mapped to an error. -/
def asList : Json → Except String (List Json)
  | .arr xs => .ok xs
  | _ => .error "TypeError: not a list"

/-- Python `s.lower()` (an `AttributeError` on non-strings). -/
def pyLower : Json → Except String String
  | .str s => .ok s.toLower
  | _ => .error "AttributeError: lower"

/-- Python `str(x)` as used by f-string interpolation; collections are
abstracted (the code only interpolates scalar name parts). -/
def pyFormat : Json → String
  | .str s => s
  | .num n => toString n
  | .null => "None"
  | .bool true => "True"
  | .bool false => "False"
  | .arr _ => "<list>"
  | .obj _ => "<dict>"

/-- Python `d[k] = v`: overwrite the first occurrence in place, otherwise
append at the end (dict insertion-order semantics). -/
def setKV : Row → String → Json → Row
  | [], k, v => [(k, v)]
  | (k', v') :: rest, k, v =>
    if k' == k then (k', v) :: rest else (k', v') :: setKV rest k v

/-- Python `d.update(kvs)`: apply `setKV` for each pair in order. -/
def updateRow (row : Row) (kvs : List (String × Json)) : Row :=
  kvs.foldl (fun r p => setKV r p.1 p.2) row

/-- Python `row[k]` on a table row (pandas `Series` access by label). -/
def rowIndex (r : Row) (k : String) : Except String Json :=
  match r.lookup k with
  | some v => .ok v
  | none => .error ("KeyError: " ++ k)

/-- The loop body of the Python `for` loops: map, stopping at the first
error, accumulating results in order. -/
def mapExcept {α β : Type} (f : α → Except String β) : List α → Except String (List β)
  | [] => .ok []
  | a :: as => do
    let b ← f a
    let bs ← mapExcept f as
    .ok (b :: bs)

/-! ## Fetcher (`fetch_json`, main.py lines 22-30) -/

/-- Outcome of one `requests.get` + JSON decode, as seen inside the `try`
block of `fetch_json`: either a 2xx response with a valid JSON body, or one
of the failure modes the spec's taxonomy names.  The bare `except Exception`
catches all of them. -/
inductive FetchOutcome where
  | success (body : Json)
  | httpError (status : Nat)
  | transportError
  | decodeError

/-- `fetch_json`: returns the parsed JSON or `None`, plus the list of
diagnostic lines printed (one per failure, naming the URL). -/
def fetch_json (url : String) (o : FetchOutcome) : Option Json × List String :=
  match o with
  | .success j => (some j, [])
  | .httpError _ => (none, ["[ERROR] Failed fetching " ++ url])
  | .transportError => (none, ["[ERROR] Failed fetching " ++ url])
  | .decodeError => (none, ["[ERROR] Failed fetching " ++ url])

/-! ## Team aggregator (`fetch_teams`, main.py lines 34-157) -/

/-- The null-safe `entry.get(...)` fields of the team dict literal that come
before the computed `reg_ot_wins` field, in source order:
(row key, source key, default). -/
def specsA : List (String × String × Json) :=
  [("wins", "wins", .null),
   ("losses", "losses", .null),
   ("ot_losses", "otLosses", .null),
   ("games_played", "gamesPlayed", .null),
   ("points", "points", .null),
   ("point_pctg", "pointPctg", .null),
   ("win_pctg", "winPctg", .null),
   ("clinch", "clinchIndicator", .str ""),
   ("goals_for", "goalFor", .null),
   ("goals_against", "goalAgainst", .null),
   ("goal_diff", "goalDifferential", .null),
   ("streak_type", "streakCode", .str ""),
   ("streak_length", "streakCount", .null),
   ("regulation_wins", "regulationWins", .null)]

/-- The null-safe `entry.get(...)` fields after `reg_ot_wins`, in source
order. -/
def specsB : List (String × String × Json) :=
  [("shootout_wins", "shootoutWins", .null),
   ("shootout_losses", "shootoutLosses", .null),
   ("home_games_played", "homeGamesPlayed", .null),
   ("home_wins", "homeWins", .null),
   ("home_losses", "homeLosses", .null),
   ("home_ot_losses", "homeOtLosses", .null),
   ("home_points", "homePoints", .null),
   ("home_goals_for", "homeGoalsFor", .null),
   ("home_goals_against", "homeGoalsAgainst", .null),
   ("home_goal_diff", "homeGoalDifferential", .null),
   ("road_games_played", "roadGamesPlayed", .null),
   ("road_wins", "roadWins", .null),
   ("road_losses", "roadLosses", .null),
   ("road_ot_losses", "roadOtLosses", .null),
   ("road_points", "roadPoints", .null),
   ("road_goals_for", "roadGoalsFor", .null),
   ("road_goals_against", "roadGoalsAgainst", .null),
   ("road_goal_diff", "roadGoalDifferential", .null),
   ("l10_wins", "l10Wins", .null),
   ("l10_losses", "l10Losses", .null),
   ("l10_ot_losses", "l10OtLosses", .null),
   ("l10_points", "l10Points", .null),
   ("l10_goals_for", "l10GoalsFor", .null),
   ("l10_goals_against", "l10GoalsAgainst", .null),
   ("l10_goal_diff", "l10GoalDifferential", .null)]

/-- The `team_data` dict literal (main.py lines 45-104): identity fields
read with direct indexing, record counters read with `entry.get`, and the
computed `reg_ot_wins = entry.get("regulationPlusOtWins") -
entry.get("regulationWins")` in the middle.  Evaluation order (and hence
which error fires first) follows the source. -/
def mkTeamData (entry : Json) (team_abbr : Json) : Except String Row := do
  let team_name ← pyIndex (← pyIndex entry "teamName") "default"
  let conference ← pyIndex entry "conferenceName"
  let division ← pyIndex entry "divisionName"
  let logo ← pyIndex entry "teamLogo"
  match entry with
  | .obj kvs => do
    let reg_ot ← pySub (getD kvs "regulationPlusOtWins" .null)
                       (getD kvs "regulationWins" .null)
    .ok ([("team_abbr", team_abbr), ("team_name", team_name),
          ("conference", conference), ("division", division), ("logo", logo)]
         ++ (specsA.map (fun s => (s.1, getD kvs s.2.1 s.2.2))
             ++ (("reg_ot_wins", reg_ot)
                 :: specsB.map (fun s => (s.1, getD kvs s.2.1 s.2.2)))))
  | _ => .error "TypeError: not a dict"

/-- Power-play merge fields (main.py lines 114-121): (row key, source key). -/
def ppFields : List (String × String) :=
  [("power_play_pct", "powerPlayPct"),
   ("power_play_goals", "powerPlayGoalsFor"),
   ("pp_goals_per_game", "ppGoalsPerGame"),
   ("pp_opportunities", "ppOpportunities"),
   ("sh_goals_against", "shGoalsAgainst"),
   ("pp_net_goals", "ppNetGoals")]

/-- Goals-by-period merge fields (main.py lines 128-137). -/
def gbpFields : List (String × String) :=
  [("period1GoalsFor", "period1GoalsFor"),
   ("period2GoalsFor", "period2GoalsFor"),
   ("period3GoalsFor", "period3GoalsFor"),
   ("periodOtGoalsFor", "periodOtGoalsFor"),
   ("period1GoalsAgainst", "period1GoalsAgainst"),
   ("period2GoalsAgainst", "period2GoalsAgainst"),
   ("period3GoalsAgainst", "period3GoalsAgainst"),
   ("periodOtGoalsAgainst", "periodOtGoalsAgainst")]

/-- Faceoff merge fields (main.py lines 145-153). -/
def fozFields : List (String × String) :=
  [("faceoff_win_pct", "faceoffWinPct"),
   ("defensive_zone_faceoff_pct", "defensiveZoneFaceoffPct"),
   ("neutral_zone_faceoff_pct", "neutralZoneFaceoffPct"),
   ("offensive_zone_faceoff_pct", "offensiveZoneFaceoffPct"),
   ("pp_faceoff_pct", "ppFaceoffPct"),
   ("sh_faceoff_pct", "shFaceoffPct"),
   ("total_faceoffs", "totalFaceoffs")]

/-- `team_data.update({dest: row.get(src) for ...})`: build the literal
(every value via `.get`, so `AttributeError` if the first data row is not a
dict), then update the team dict. -/
def mergeStats (td : Row) (row : Json) (fields : List (String × String)) :
    Except String Row :=
  match row with
  | .obj kvs =>
    .ok (updateRow td (fields.map (fun p => (p.1, getD kvs p.2 .null))))
  | _ => .error "AttributeError: get"

/-- Power-play block (main.py lines 110-121).  Note the direct index
`pp_data["data"]` in the condition: a truthy payload without a `"data"` key
raises `KeyError`. -/
def applyPP (td : Row) (pp_data : Option Json) : Except String Row :=
  match pp_data with
  | none => .ok td
  | some j =>
    if j.truthy then do
      let d ← pyIndex j "data"
      if d.truthy then do
        let pp_stats ← pyIndex0 d
        mergeStats td pp_stats ppFields
      else .ok td
    else .ok td

/-- Goals-by-period block (main.py lines 124-137): the condition uses the
null-safe `gbp.get("data")`. -/
def applyGBP (td : Row) (gbp : Option Json) : Except String Row :=
  match gbp with
  | none => .ok td
  | some j =>
    if j.truthy then do
      let d ← pyGet j "data"
      if d.truthy then do
        let d2 ← pyIndex j "data"
        let gbp_row ← pyIndex0 d2
        mergeStats td gbp_row gbpFields
      else .ok td
    else .ok td

/-- Faceoff block (main.py lines 141-153): same shape as goals-by-period. -/
def applyFOZ (td : Row) (foz : Option Json) : Except String Row :=
  match foz with
  | none => .ok td
  | some j =>
    if j.truthy then do
      let d ← pyGet j "data"
      if d.truthy then do
        let d2 ← pyIndex j "data"
        let foz_row ← pyIndex0 d2
        mergeStats td foz_row fozFields
      else .ok td
    else .ok td

/-- The body of the standings loop (main.py lines 43-155) for one entry:
extract `team_abbr`, build the base dict, then merge the three
supplementary fetches (supplied as oracles keyed by the team abbreviation
the code interpolates into the cayenne query URL). -/
def processEntry (entry : Json) (ppData gbpData fozData : Json → Option Json) :
    Except String Row := do
  let team_abbr ← pyIndex (← pyIndex entry "teamAbbrev") "default"
  let td ← mkTeamData entry team_abbr
  let td ← applyPP td (ppData team_abbr)
  let td ← applyGBP td (gbpData team_abbr)
  applyFOZ td (fozData team_abbr)

/-- `fetch_teams` (main.py lines 34-157): `standings` is the payload of the
`/standings/now` fetch; a failed or falsy payload yields the empty table. -/
def fetch_teams (standings : Option Json)
    (ppData gbpData fozData : Json → Option Json) : Except String (List Row) :=
  match standings with
  | none => .ok []
  | some data =>
    if data.truthy then do
      let entriesJ ← pyGetD data "standings" (.arr [])
      let entries ← asList entriesJ
      mapExcept (fun e => processEntry e ppData gbpData fozData) entries
    else .ok []

/-! ## Roster aggregator (`fetch_team_roster`, main.py lines 159-166) -/

/-- `fetch_team_roster`, given the payload of the roster fetch for one
team: a failed or falsy payload yields the empty list, otherwise the three
position groups are concatenated in the order forwards, defensemen,
goalies (absent groups default to `[]`). -/
def fetch_team_roster (data : Option Json) : Except String (List Json) :=
  match data with
  | none => .ok []
  | some d =>
    if d.truthy then
      match d with
      | .obj kvs => do
        let fwd ← asList (getD kvs "forwards" (.arr []))
        let dfn ← asList (getD kvs "defensemen" (.arr []))
        let gol ← asList (getD kvs "goalies" (.arr []))
        .ok (fwd ++ dfn ++ gol)
      | _ => .error "AttributeError: get"
    else .ok []

/-! ## Player stats aggregator (`fetch_player_stats`, main.py lines 169-207) -/

/-- `{2: "regular", 3: "playoffs"}.get(game_type, "other")`
(main.py line 181). -/
def seasonTypeOf : Json → String
  | .num 2 => "regular"
  | .num 3 => "playoffs"
  | _ => "other"

/-- One season-totals row (main.py lines 179-191): the season dict itself,
updated with the tagging fields in literal order.  The `team` field comes
from the season entry's own `teamName`. -/
def mkSeasonRow (player_id : Json) (full_name : String) (position : Json)
    (skvs : List (String × Json)) : Row :=
  updateRow skvs
    [("player_id", player_id),
     ("player", .str full_name),
     ("team", getD skvs "teamName" .null),
     ("type", .str (seasonTypeOf (getD skvs "gameTypeId" .null))),
     ("season_scope", .str "season"),
     ("positionCode", position)]

/-- The body of the season loop for one entry: a non-dict entry would fail
`season.update`. -/
def seasonRowOrError (player_id : Json) (full_name : String) (position : Json)
    (season : Json) : Except String Row :=
  match season with
  | .obj skvs => .ok (mkSeasonRow player_id full_name position skvs)
  | _ => .error "AttributeError: update"

/-- One career-totals row (main.py lines 194-205): the career dict updated
with the tagging fields; `team` is the player's current team. -/
def mkCareerRow (player_id : Json) (full_name : String) (team_name : Json)
    (position : Json) (label : String) (ckvs : List (String × Json)) : Row :=
  updateRow ckvs
    [("player_id", player_id),
     ("player", .str full_name),
     ("team", team_name),
     ("type", .str label),
     ("season_scope", .str "career"),
     ("positionCode", position)]

/-- One iteration of the career loop:
`career = data.get("careerTotals", {}).get(key); if career: ...` —
a falsy value (absent key, `null`, or an empty dict) contributes no row. -/
def careerPart (player_id : Json) (full_name : String) (team_name : Json)
    (position : Json) (careerTotals : Json) (key label : String) :
    Except String (List Row) := do
  let career ← pyGet careerTotals key
  if career.truthy then
    match career with
    | .obj ckvs => .ok [mkCareerRow player_id full_name team_name position label ckvs]
    | _ => .error "AttributeError: update"
  else .ok []

/-- `fetch_player_stats`, given the payload of the player landing fetch:
a failed or falsy payload yields zero rows; otherwise season rows in
source order, then career regular-season, then career playoffs. -/
def fetch_player_stats (player_id : Json) (full_name : String)
    (team_name : Json) (position : Json) (data : Option Json) :
    Except String (List Row) :=
  match data with
  | none => .ok []
  | some d =>
    if d.truthy then
      match d with
      | .obj pkvs => do
        let seasons ← asList (getD pkvs "seasonTotals" (.arr []))
        let seasonRows ← mapExcept (seasonRowOrError player_id full_name position) seasons
        let careerTotals := getD pkvs "careerTotals" (.obj [])
        let cr ← careerPart player_id full_name team_name position careerTotals
                   "regularSeason" "regular"
        let cp ← careerPart player_id full_name team_name position careerTotals
                   "playoffs" "playoffs"
        .ok (seasonRows ++ (cr ++ cp))
      | _ => .error "AttributeError: get"
    else .ok []

/-! ## Orchestration (`build_rosters_and_stats` and `main`,
main.py lines 210-268) -/

/-- One roster row plus the player's stat rows (the body of the player loop,
main.py lines 222-239).  The stats oracle is keyed by the player id the
code interpolates into the landing URL. -/
def processPlayer (player : Json) (team_name team_abbr : Json)
    (statsData : Json → Option Json) : Except String (Row × List Row) := do
  let player_id ← pyIndex player "id"
  let fn ← pyIndex (← pyIndex player "firstName") "default"
  let ln ← pyIndex (← pyIndex player "lastName") "default"
  let full_name := pyFormat fn ++ " " ++ pyFormat ln
  let position ← pyIndex player "positionCode"
  let sweater ← pyGetD player "sweaterNumber" (.str "N/A")
  let mug ← pyGet player "headshot"
  let rosterRow : Row :=
    [("player_id", player_id), ("player", .str full_name),
     ("positionCode", position), ("sweaterNumber", sweater),
     ("team", team_name), ("team_abbr", team_abbr), ("headshot", mug)]
  let stats ← fetch_player_stats player_id full_name team_name position
                (statsData player_id)
  .ok (rosterRow, stats)

/-- The team loop of `build_rosters_and_stats`, with the two accumulating
tables threaded explicitly.  The roster oracle is keyed by the lowered team
abbreviation the code interpolates into the roster URL; `time.sleep` is
plumbing and not modelled. -/
def buildGo (rosterData : String → Option Json) (statsData : Json → Option Json) :
    List Row → (List Row × List Row) → Except String (List Row × List Row)
  | [], acc => .ok acc
  | team :: rest, acc => do
    let team_abbr ← rowIndex team "team_abbr"
    let team_name ← rowIndex team "team_name"
    let lowered ← pyLower team_abbr
    let players ← fetch_team_roster (rosterData lowered)
    let results ← mapExcept
      (fun p => processPlayer p team_name team_abbr statsData) players
    buildGo rosterData statsData rest
      (acc.1 ++ results.map (fun r => r.1),
       acc.2 ++ (results.map (fun r => r.2)).flatten)

/-- `build_rosters_and_stats` (main.py lines 210-243). -/
def build_rosters_and_stats (teams : List Row)
    (rosterData : String → Option Json) (statsData : Json → Option Json) :
    Except String (List Row × List Row) :=
  buildGo rosterData statsData teams ([], [])

/-- Result of one run of `main` (main.py lines 251-268):
`abortedNoTeams` models printing `[ERROR] No teams returned.` and
returning before any file is created; `exported` models writing the three
CSV files with the given tables. -/
inductive RunResult where
  | abortedNoTeams
  | exported (teams rosters stats : List Row)

/-- `main`: fetch the team table; abort when it is empty; otherwise build
the roster and stats tables and export all three. -/
def mainRun (standings : Option Json)
    (ppData gbpData fozData : Json → Option Json)
    (rosterData : String → Option Json) (statsData : Json → Option Json) :
    Except String RunResult := do
  let teams ← fetch_teams standings ppData gbpData fozData
  if teams.isEmpty then
    .ok .abortedNoTeams
  else do
    let (rosters, stats) ← build_rosters_and_stats teams rosterData statsData
    .ok (.exported teams rosters stats)

/-- Discriminator used to state that a run reached the export stage. -/
def isExported : Except String RunResult → Bool
  | .ok (.exported _ _ _) => true
  | _ => false

/-- The always-failing fetch oracle. -/
def noFetch : Json → Option Json := fun _ => none

/-- The always-failing roster oracle. -/
def noRoster : String → Option Json := fun _ => none

/-! ## Helper lemmas -/

theorem except_bind_ok {α β : Type} (a : α) (f : α → Except String β) :
    (Except.ok a >>= f : Except String β) = f a := rfl

theorem except_isOk_iff {α : Type} (e : Except String α) :
    e.isOk = true ↔ ∃ a, e = .ok a := by
  cases e <;> simp [Except.isOk, Except.toBool]

theorem lookup_setKV_self (r : Row) (k : String) (v : Json) :
    (setKV r k v).lookup k = some v := by
  induction r with
  | nil => simp [setKV, List.lookup]
  | cons p rest ih =>
    obtain ⟨k', v'⟩ := p
    by_cases h : k' = k
    · subst h
      simp [setKV, List.lookup]
    · have hb : (k' == k) = false := beq_eq_false_iff_ne.mpr h
      have hb2 : (k == k') = false := beq_eq_false_iff_ne.mpr (Ne.symm h)
      simp [setKV, List.lookup, hb, hb2, ih]

theorem lookup_setKV_ne (r : Row) (k k' : String) (v : Json) (h : k' ≠ k) :
    (setKV r k v).lookup k' = r.lookup k' := by
  have hb : (k' == k) = false := beq_eq_false_iff_ne.mpr h
  induction r with
  | nil => simp [setKV, List.lookup, hb]
  | cons p rest ih =>
    obtain ⟨k0, v0⟩ := p
    by_cases h0 : k0 = k
    · subst h0
      have hb0 : (k0 == k0) = true := beq_self_eq_true k0
      simp [setKV, List.lookup, hb0, hb]
    · have hb0 : (k0 == k) = false := beq_eq_false_iff_ne.mpr h0
      simp [setKV, List.lookup, hb0, ih]

theorem mapExcept_map {α γ β : Type} (f : γ → Except String β) (m : α → γ)
    (l : List α) :
    mapExcept f (l.map m) = mapExcept (fun a => f (m a)) l := by
  induction l with
  | nil => rfl
  | cons a as ih => simp [mapExcept, List.map, ih]

theorem mapExcept_ok {α β : Type} (f : α → Except String β) (g : α → β)
    (l : List α) (h : ∀ a ∈ l, f a = .ok (g a)) :
    mapExcept f l = .ok (l.map g) := by
  induction l with
  | nil => rfl
  | cons a as ih =>
    have ha := h a (List.mem_cons_self a as)
    have hrest := ih (fun x hx => h x (List.mem_cons_of_mem a hx))
    simp [mapExcept, ha, hrest, except_bind_ok, List.map]

theorem mapExcept_all_ok {α β : Type} (f : α → Except String β) (l : List α)
    (h : ∀ a ∈ l, (f a).isOk = true) :
    ∃ rs, mapExcept f l = .ok rs ∧ rs.length = l.length ∧
      ∀ (i : Nat) (hi : i < l.length) (hr : i < rs.length),
        f (l.get ⟨i, hi⟩) = .ok (rs.get ⟨i, hr⟩) := by
  induction l with
  | nil =>
    exact ⟨[], rfl, rfl, fun i hi _ => absurd hi (by simp)⟩
  | cons a as ih =>
    obtain ⟨b, hb⟩ := (except_isOk_iff (f a)).1 (h a (List.mem_cons_self a as))
    obtain ⟨rs, h1, h2, h3⟩ := ih (fun x hx => h x (List.mem_cons_of_mem a hx))
    refine ⟨b :: rs, ?_, by simp [h2], ?_⟩
    · simp [mapExcept, hb, h1, except_bind_ok]
    · intro i hi hr
      match i with
      | 0 => simpa using hb
      | Nat.succ n =>
        exact h3 n (by simpa using hi) (by simpa using hr)

/-! ## Claim theorems -/

/-- C9: for every URL, the fetcher either returns the parsed JSON value
(success, no diagnostic) or an explicit `None` after printing exactly one
diagnostic line; it is a total function of the request outcome, so no
exception propagates past it. -/
theorem C9_fetch_json_boundary (url : String) (o : FetchOutcome) :
    (fetch_json url o).1 =
      (match o with | .success j => some j | _ => none) ∧
    (fetch_json url o).2.length =
      (match o with | .success _ => 0 | _ => 1) := by
  cases o <;> exact ⟨rfl, rfl⟩

/-- C10: a fetch that succeeds with a falsy payload (empty JSON object or
empty array) is treated by each aggregator exactly like a failed fetch:
the team aggregator returns the empty table and the roster and player
stats aggregators return zero rows, in each case equal to the result on a
failed fetch. -/
theorem C10_falsy_payload_like_failure
    (ppData gbpData fozData : Json → Option Json)
    (player_id : Json) (full_name : String) (team_name position : Json) :
    fetch_teams (some (.obj [])) ppData gbpData fozData = .ok [] ∧
    fetch_teams (some (.arr [])) ppData gbpData fozData = .ok [] ∧
    fetch_teams (some (.obj [])) ppData gbpData fozData
      = fetch_teams none ppData gbpData fozData ∧
    fetch_teams (some (.arr [])) ppData gbpData fozData
      = fetch_teams none ppData gbpData fozData ∧
    fetch_team_roster (some (.obj [])) = .ok [] ∧
    fetch_team_roster (some (.arr [])) = .ok [] ∧
    fetch_team_roster (some (.obj [])) = fetch_team_roster none ∧
    fetch_team_roster (some (.arr [])) = fetch_team_roster none ∧
    fetch_player_stats player_id full_name team_name position (some (.obj []))
      = .ok [] ∧
    fetch_player_stats player_id full_name team_name position (some (.arr []))
      = .ok [] ∧
    fetch_player_stats player_id full_name team_name position (some (.obj []))
      = fetch_player_stats player_id full_name team_name position none ∧
    fetch_player_stats player_id full_name team_name position (some (.arr []))
      = fetch_player_stats player_id full_name team_name position none :=
  ⟨rfl, rfl, rfl, rfl, rfl, rfl, rfl, rfl, rfl, rfl, rfl, rfl⟩

/-- C3 (amended): for each supplementary fetch, a failed fetch or a payload
whose `"data"` collection is empty leaves the team record unchanged (fields
absent), and a payload with at least one data row merges the fixed field
set of the first row into the record; for goals-by-period and faceoffs a
truthy payload lacking the `"data"` key is also left unmerged, but for the
power-play fetch that case raises (see the counterexample). -/
theorem C3_supplementary_merge (td : Row) (rkvs : Row) (rest : List Json) :
    applyPP td none = .ok td ∧
    applyGBP td none = .ok td ∧
    applyFOZ td none = .ok td ∧
    applyPP td (some (.obj [("data", .arr [])])) = .ok td ∧
    applyGBP td (some (.obj [("data", .arr [])])) = .ok td ∧
    applyFOZ td (some (.obj [("data", .arr [])])) = .ok td ∧
    applyGBP td (some (.obj [("total", .num 1)])) = .ok td ∧
    applyFOZ td (some (.obj [("total", .num 1)])) = .ok td ∧
    applyPP td (some (.obj [("data", .arr (.obj rkvs :: rest))]))
      = .ok (updateRow td (ppFields.map (fun p => (p.1, getD rkvs p.2 .null)))) ∧
    applyGBP td (some (.obj [("data", .arr (.obj rkvs :: rest))]))
      = .ok (updateRow td (gbpFields.map (fun p => (p.1, getD rkvs p.2 .null)))) ∧
    applyFOZ td (some (.obj [("data", .arr (.obj rkvs :: rest))]))
      = .ok (updateRow td (fozFields.map (fun p => (p.1, getD rkvs p.2 .null)))) :=
  ⟨rfl, rfl, rfl, rfl, rfl, rfl, rfl, rfl, rfl, rfl, rfl⟩

/-- A well-formed standings entry used to exhibit the power-play `KeyError`. -/
def c3entry : Json := .obj
  [("teamAbbrev", .obj [("default", .str "TOR")]),
   ("teamName", .obj [("default", .str "Maple Leafs")]),
   ("conferenceName", .str "Eastern"),
   ("divisionName", .str "Atlantic"),
   ("teamLogo", .str "logo.svg"),
   ("regulationPlusOtWins", .num 40),
   ("regulationWins", .num 30)]

/-- C3 counterexample: the claim says a supplementary fetch that succeeds
but yields no rows leaves the fields absent and raises no error; but the
power-play block indexes `pp_data["data"]` directly, so a successful truthy
payload without a `"data"` key (hence with no rows) raises `KeyError`
instead of being skipped. -/
theorem C3_cex_pp_missing_data_key :
    processEntry c3entry (fun _ => some (.obj [("total", .num 1)]))
      noFetch noFetch = .error "KeyError: data" := rfl

/-- C1 (amended, positive half): whenever both `regulationPlusOtWins` and
`regulationWins` are present (as numbers) in a standings entry whose
identity fields are present, the constructed row's `reg_ot_wins` field is
exactly their arithmetic difference. -/
theorem C1_reg_ot_wins_difference
    (kvs tn : List (String × Json)) (abbr nm conf dv lg : Json)
    (a b : Int) (row : Row)
    (h1 : kvs.lookup "teamName" = some (.obj tn))
    (h2 : tn.lookup "default" = some nm)
    (h3 : kvs.lookup "conferenceName" = some conf)
    (h4 : kvs.lookup "divisionName" = some dv)
    (h5 : kvs.lookup "teamLogo" = some lg)
    (h6 : kvs.lookup "regulationPlusOtWins" = some (.num a))
    (h7 : kvs.lookup "regulationWins" = some (.num b))
    (hm : mkTeamData (.obj kvs) abbr = .ok row) :
    row.lookup "reg_ot_wins" = some (.num (a - b)) := by
  simp only [mkTeamData, pyIndex, getD, h1, h2, h3, h4, h5, h6, h7,
    Option.getD_some, pySub, except_bind_ok, Except.ok.injEq] at hm
  subst hm
  rfl

/-- Standings entry with both regulation fields (40 and 30). -/
def c1entry : Json := .obj
  [("teamAbbrev", .obj [("default", .str "TOR")]),
   ("teamName", .obj [("default", .str "Maple Leafs")]),
   ("conferenceName", .str "Eastern"),
   ("divisionName", .str "Atlantic"),
   ("teamLogo", .str "logo.svg"),
   ("wins", .num 44),
   ("regulationPlusOtWins", .num 40),
   ("regulationWins", .num 30)]

/-- C1 witness: `regulationPlusOtWins = 40`, `regulationWins = 30` gives
`reg_ot_wins = 10`. -/
theorem C1_reg_ot_wins_difference_witness :
    ((mkTeamData c1entry (Json.str "TOR")).toOption.getD []).lookup "reg_ot_wins"
      = some (Json.num 10) :=
  C1_reg_ot_wins_difference
    [("teamAbbrev", .obj [("default", .str "TOR")]),
     ("teamName", .obj [("default", .str "Maple Leafs")]),
     ("conferenceName", .str "Eastern"),
     ("divisionName", .str "Atlantic"),
     ("teamLogo", .str "logo.svg"),
     ("wins", .num 44),
     ("regulationPlusOtWins", .num 40),
     ("regulationWins", .num 30)]
    [("default", .str "Maple Leafs")]
    (.str "TOR") (.str "Maple Leafs") (.str "Eastern") (.str "Atlantic")
    (.str "logo.svg") 40 30 _
    rfl rfl rfl rfl rfl rfl rfl rfl

/-- Standings entry whose `regulationWins` key is absent. -/
def c1bad : Json := .obj
  [("teamAbbrev", .obj [("default", .str "TOR")]),
   ("teamName", .obj [("default", .str "Maple Leafs")]),
   ("conferenceName", .str "Eastern"),
   ("divisionName", .str "Atlantic"),
   ("teamLogo", .str "logo.svg"),
   ("regulationPlusOtWins", .num 40)]

/-- C1 counterexample: the claim says evaluating `reg_ot_wins` never raises
when one operand is missing, but on an entry with `regulationPlusOtWins`
present and `regulationWins` absent the subtraction is `40 - None`, which
raises `TypeError` (the row fails instead of yielding a null). -/
theorem C1_cex_missing_operand_raises :
    processEntry c1bad noFetch noFetch noFetch
      = .error "TypeError: unsupported operand type for -" := rfl

/-- C2 (amended, positive half): in a standings entry whose identity fields
and regulation-wins operands are present, every record counter field of the
team row is extracted null-safely: its value is the entry's value when the
source key is present and the field's default (null, or `""` for the
clinch/streak fields) when it is absent — the row never fails on an absent
counter key. -/
theorem C2_record_counters_nullsafe
    (kvs tn : List (String × Json)) (abbr nm conf dv lg : Json)
    (a b : Int) (row : Row) (p : String × String × Json)
    (h1 : kvs.lookup "teamName" = some (.obj tn))
    (h2 : tn.lookup "default" = some nm)
    (h3 : kvs.lookup "conferenceName" = some conf)
    (h4 : kvs.lookup "divisionName" = some dv)
    (h5 : kvs.lookup "teamLogo" = some lg)
    (h6 : kvs.lookup "regulationPlusOtWins" = some (.num a))
    (h7 : kvs.lookup "regulationWins" = some (.num b))
    (hm : mkTeamData (.obj kvs) abbr = .ok row)
    (hp : p ∈ specsA ++ specsB) :
    row.lookup p.1 = some (getD kvs p.2.1 p.2.2) := by
  simp only [mkTeamData, pyIndex, getD, h1, h2, h3, h4, h5, h6, h7,
    Option.getD_some, pySub, except_bind_ok, Except.ok.injEq] at hm
  subst hm
  fin_cases hp <;> rfl

/-- Standings entry with identity and regulation fields present but every
other record counter key absent. -/
def c2entry : Json := .obj
  [("teamAbbrev", .obj [("default", .str "WPG")]),
   ("teamName", .obj [("default", .str "Jets")]),
   ("conferenceName", .str "Western"),
   ("divisionName", .str "Central"),
   ("teamLogo", .str "jets.svg"),
   ("regulationPlusOtWins", .num 12),
   ("regulationWins", .num 9)]

/-- C2 witness: with the `wins` key absent the row's `wins` field is null
rather than an error. -/
theorem C2_record_counters_nullsafe_witness :
    ((mkTeamData c2entry (Json.str "WPG")).toOption.getD []).lookup "wins"
      = some Json.null :=
  C2_record_counters_nullsafe
    [("teamAbbrev", .obj [("default", .str "WPG")]),
     ("teamName", .obj [("default", .str "Jets")]),
     ("conferenceName", .str "Western"),
     ("divisionName", .str "Central"),
     ("teamLogo", .str "jets.svg"),
     ("regulationPlusOtWins", .num 12),
     ("regulationWins", .num 9)]
    [("default", .str "Jets")]
    (.str "WPG") (.str "Jets") (.str "Western") (.str "Central")
    (.str "jets.svg") 12 9 _ ("wins", "wins", Json.null)
    rfl rfl rfl rfl rfl rfl rfl rfl
    (List.mem_append_left _ (List.mem_cons_self _ _))

/-- Standings entry whose `conferenceName` key is absent. -/
def c2bad : Json := .obj
  [("teamAbbrev", .obj [("default", .str "BOS")]),
   ("teamName", .obj [("default", .str "Bruins")]),
   ("regulationPlusOtWins", .num 40),
   ("regulationWins", .num 30)]

/-- C2 counterexample: the claim says extraction of the identity fields is
null-safe, but the identity fields are read with direct indexing; an entry
without `conferenceName` raises `KeyError` for the row instead of mapping
the field to null. -/
theorem C2_cex_absent_identity_key_raises :
    processEntry c2bad noFetch noFetch noFetch
      = .error "KeyError: conferenceName" := rfl

/-- Player profile with two season totals (game types 2 and 3) and both
career-totals keys bound to nonempty records. -/
def c4good : Json := .obj
  [("seasonTotals", .arr [.obj [("gameTypeId", .num 2), ("goals", .num 5)],
                          .obj [("gameTypeId", .num 3), ("goals", .num 2)]]),
   ("careerTotals", .obj [("regularSeason", .obj [("goals", .num 100)]),
                          ("playoffs", .obj [("goals", .num 20)])])]

/-- C4 (amended): for any profile whose season totals are a list of season
records and whose career totals bind both keys to truthy (nonempty)
records, the aggregator returns exactly the season rows in source order,
followed by the regular-season career row, then the playoffs career row;
when the career-totals key is absent only the season rows are returned;
and on the concrete two-season profile the result is exactly 4 rows in the
order season/regular, season/playoffs, career/regular, career/playoffs. -/
theorem C4_player_stats_row_order (pid : Json) (nm : String) (team pos : Json)
    (seasonKvss : List (List (String × Json)))
    (e1 e2 : String × Json) (c1 c2 : List (String × Json)) :
    fetch_player_stats pid nm team pos (some (.obj
        [("seasonTotals", .arr (seasonKvss.map Json.obj)),
         ("careerTotals", .obj [("regularSeason", .obj (e1 :: c1)),
                                ("playoffs", .obj (e2 :: c2))])]))
      = .ok (seasonKvss.map (mkSeasonRow pid nm pos)
             ++ ([mkCareerRow pid nm team pos "regular" (e1 :: c1)]
                 ++ [mkCareerRow pid nm team pos "playoffs" (e2 :: c2)])) ∧
    fetch_player_stats pid nm team pos (some (.obj
        [("seasonTotals", .arr (seasonKvss.map Json.obj))]))
      = .ok (seasonKvss.map (mkSeasonRow pid nm pos)) ∧
    ((fetch_player_stats (.num 1) "Sample Player" (.str "EDM") (.str "C")
        (some c4good)).toOption.getD []).length = 4 ∧
    ((fetch_player_stats (.num 1) "Sample Player" (.str "EDM") (.str "C")
        (some c4good)).toOption.getD []).map
      (fun (r : Row) => List.lookup "season_scope" r)
      = [some (.str "season"), some (.str "season"),
         some (.str "career"), some (.str "career")] ∧
    ((fetch_player_stats (.num 1) "Sample Player" (.str "EDM") (.str "C")
        (some c4good)).toOption.getD []).map
      (fun (r : Row) => List.lookup "type" r)
      = [some (.str "regular"), some (.str "playoffs"),
         some (.str "regular"), some (.str "playoffs")] := by
  have hms : mapExcept (seasonRowOrError pid nm pos) (seasonKvss.map Json.obj)
      = .ok (seasonKvss.map (mkSeasonRow pid nm pos)) := by
    rw [mapExcept_map]
    exact mapExcept_ok _ _ _ (fun a _ => rfl)
  refine ⟨?_, ?_, rfl, rfl, rfl⟩
  · have key : fetch_player_stats pid nm team pos (some (.obj
        [("seasonTotals", .arr (seasonKvss.map Json.obj)),
         ("careerTotals", .obj [("regularSeason", .obj (e1 :: c1)),
                                ("playoffs", .obj (e2 :: c2))])]))
        = mapExcept (seasonRowOrError pid nm pos) (seasonKvss.map Json.obj)
            >>= (fun seasonRows => .ok (seasonRows
              ++ ([mkCareerRow pid nm team pos "regular" (e1 :: c1)]
                  ++ [mkCareerRow pid nm team pos "playoffs" (e2 :: c2)]))) := rfl
    rw [key, hms]
    rfl
  · have key : fetch_player_stats pid nm team pos (some (.obj
        [("seasonTotals", .arr (seasonKvss.map Json.obj))]))
        = mapExcept (seasonRowOrError pid nm pos) (seasonKvss.map Json.obj)
            >>= (fun seasonRows => .ok (seasonRows ++ ([] ++ []))) := rfl
    rw [key, hms]
    simp [except_bind_ok]

/-- Player profile with two season totals (game types 2 and 3) and both
career-totals keys present, but the regular-season career record empty. -/
def c4cex : Json := .obj
  [("seasonTotals", .arr [.obj [("gameTypeId", .num 2), ("goals", .num 5)],
                          .obj [("gameTypeId", .num 3), ("goals", .num 2)]]),
   ("careerTotals", .obj [("regularSeason", .obj []),
                          ("playoffs", .obj [("goals", .num 20)])])]

/-- C4 counterexample: a profile with exactly 2 season-total entries (game
types 2 and 3) and both career-totals keys present yields 3 rows, not 4:
the loop guards on `if career:`, so a career record that is present but
empty (falsy) is skipped even though its key is present. -/
theorem C4_cex_empty_career_record :
    (fetch_player_stats (.num 2) "Empty Career" (.str "EDM") (.str "C")
        (some c4cex)).toOption.map List.length = some 3 := rfl

/-- Player profile with season entries of game type 2, 3, 99 and one with
no game-type code at all. -/
def c8profile : Json := .obj
  [("seasonTotals", .arr
     [.obj [("gameTypeId", .num 2)],
      .obj [("gameTypeId", .num 3)],
      .obj [("gameTypeId", .num 99)],
      .obj [("points", .num 11)]])]

/-- C8: every season row built by the player stats aggregator carries
`type = seasonTypeOf(gameTypeId)`, where code 2 maps to "regular", code 3
to "playoffs", and any other value — including an absent code, which reads
as null — maps to "other"; on a concrete profile with codes 2, 3, 99 and
an absent code the aggregator tags the rows regular, playoffs, other,
other. -/
theorem C8_competition_type_mapping :
    (∀ (pid : Json) (nm : String) (pos : Json) (skvs : List (String × Json)),
      (mkSeasonRow pid nm pos skvs).lookup "type"
        = some (.str (seasonTypeOf (getD skvs "gameTypeId" .null)))) ∧
    seasonTypeOf (.num 2) = "regular" ∧
    seasonTypeOf (.num 3) = "playoffs" ∧
    seasonTypeOf .null = "other" ∧
    (∀ n : Int, n ≠ 2 → n ≠ 3 → seasonTypeOf (.num n) = "other") ∧
    (∀ s : String, seasonTypeOf (.str s) = "other") ∧
    ((fetch_player_stats (.num 3) "Type Sample" (.str "EDM") (.str "C")
        (some c8profile)).toOption.getD []).map
      (fun (r : Row) => List.lookup "type" r)
      = [some (.str "regular"), some (.str "playoffs"),
         some (.str "other"), some (.str "other")] := by
  refine ⟨?_, rfl, rfl, rfl, ?_, fun s => rfl, rfl⟩
  · intro pid nm pos skvs
    simp only [mkSeasonRow, updateRow, List.foldl]
    rw [lookup_setKV_ne _ _ _ _ (by decide), lookup_setKV_ne _ _ _ _ (by decide),
      lookup_setKV_self]
  · intro n h2 h3
    simp [seasonTypeOf, h2, h3]

/-- C8 witness: game-type code 7 (and the other hypotheses at concrete
inputs) map to "other". -/
theorem C8_competition_type_mapping_witness :
    seasonTypeOf (.num 7) = "other" ∧
    (mkSeasonRow (.num 9) "W Sample" (.str "D") [("gameTypeId", .num 2)]).lookup "type"
      = some (.str "regular") :=
  ⟨C8_competition_type_mapping.2.2.2.2.1 7 (by decide) (by decide),
   C8_competition_type_mapping.1 (.num 9) "W Sample" (.str "D")
     [("gameTypeId", .num 2)]⟩

/-- C6: (1) for a roster payload with the three position groups, the roster
aggregator returns their concatenation in the fixed order forwards,
defensemen, goalies, as one flat sequence; (2) when a team's roster fetch
fails, processing that team leaves both accumulated tables exactly as they
were and the run continues with the remaining teams. -/
theorem C6_roster_concat_and_skip :
    (∀ fwd dfn gol : List Json,
      fetch_team_roster (some (.obj
          [("forwards", .arr fwd), ("defensemen", .arr dfn),
           ("goalies", .arr gol)]))
        = .ok (fwd ++ dfn ++ gol)) ∧
    (∀ (team : Row) (rest : List Row) (rosterData : String → Option Json)
       (statsData : Json → Option Json) (accR accS : List Row)
       (ab : String) (nm : Json),
      rowIndex team "team_abbr" = .ok (.str ab) →
      rowIndex team "team_name" = .ok nm →
      rosterData ab.toLower = none →
      buildGo rosterData statsData (team :: rest) (accR, accS)
        = buildGo rosterData statsData rest (accR, accS)) := by
  refine ⟨fun fwd dfn gol => rfl, ?_⟩
  intro team rest rosterData statsData accR accS ab nm h1 h2 h3
  simp only [buildGo, h1, h2, except_bind_ok, pyLower]
  rw [h3]
  simp [fetch_team_roster, mapExcept, except_bind_ok]

/-- C6 witness: the three groups concatenate in order, and a team whose
roster fetch fails contributes nothing and the fold moves on. -/
theorem C6_roster_concat_and_skip_witness :
    fetch_team_roster (some (.obj
        [("forwards", .arr [.num 1]), ("defensemen", .arr [.num 2]),
         ("goalies", .arr [.num 3])]))
      = .ok [.num 1, .num 2, .num 3] ∧
    buildGo noRoster noFetch
        [[("team_abbr", Json.str "TOR"), ("team_name", Json.str "Leafs")]]
        ([], [])
      = buildGo noRoster noFetch [] ([], []) :=
  ⟨C6_roster_concat_and_skip.1 [.num 1] [.num 2] [.num 3],
   C6_roster_concat_and_skip.2
     [("team_abbr", Json.str "TOR"), ("team_name", Json.str "Leafs")]
     [] noRoster noFetch [] [] "TOR" (Json.str "Leafs") rfl rfl rfl⟩

/-- A well-formed standings entry for the end-to-end run. -/
def c7entry : Json := .obj
  [("teamAbbrev", .obj [("default", .str "TOR")]),
   ("teamName", .obj [("default", .str "Maple Leafs")]),
   ("conferenceName", .str "Eastern"),
   ("divisionName", .str "Atlantic"),
   ("teamLogo", .str "logo.svg"),
   ("regulationPlusOtWins", .num 40),
   ("regulationWins", .num 30)]

/-- C7: when the standings fetch fails, or yields an empty team table, the
run stops in the reported-error state `abortedNoTeams` before any file is
written; when the team table is nonempty (and the roster/stats pass
completes) the run proceeds to aggregation and reaches the export stage
with all three tables. -/
theorem C7_zero_teams_aborts :
    (∀ (ppData gbpData fozData : Json → Option Json)
       (rosterData : String → Option Json) (statsData : Json → Option Json),
      mainRun none ppData gbpData fozData rosterData statsData
        = .ok .abortedNoTeams) ∧
    (∀ (standings : Option Json) (ppData gbpData fozData : Json → Option Json)
       (rosterData : String → Option Json) (statsData : Json → Option Json),
      fetch_teams standings ppData gbpData fozData = .ok [] →
      mainRun standings ppData gbpData fozData rosterData statsData
        = .ok .abortedNoTeams) ∧
    (∀ (standings : Option Json) (ppData gbpData fozData : Json → Option Json)
       (rosterData : String → Option Json) (statsData : Json → Option Json)
       (t : Row) (ts : List Row) (rosters stats : List Row),
      fetch_teams standings ppData gbpData fozData = .ok (t :: ts) →
      build_rosters_and_stats (t :: ts) rosterData statsData
        = .ok (rosters, stats) →
      mainRun standings ppData gbpData fozData rosterData statsData
        = .ok (.exported (t :: ts) rosters stats)) := by
  refine ⟨fun _ _ _ _ _ => rfl, ?_, ?_⟩
  · intro standings ppData gbpData fozData rosterData statsData h
    simp only [mainRun, h, except_bind_ok, List.isEmpty]
    rfl
  · intro standings ppData gbpData fozData rosterData statsData t ts r s h1 h2
    simp only [mainRun, h1, except_bind_ok, List.isEmpty,
      build_rosters_and_stats] at h2 ⊢
    rw [h2]
    rfl

/-- C7 witness: a failed fetch and an empty standings collection both abort
with the reported error and no export; a one-team standings payload reaches
the export stage. -/
theorem C7_zero_teams_aborts_witness :
    mainRun none noFetch noFetch noFetch noRoster noFetch
      = .ok .abortedNoTeams ∧
    mainRun (some (.obj [("standings", .arr [])])) noFetch noFetch noFetch
        noRoster noFetch
      = .ok .abortedNoTeams ∧
    isExported (mainRun (some (.obj [("standings", .arr [c7entry])]))
        noFetch noFetch noFetch noRoster noFetch) = true := by
  refine ⟨C7_zero_teams_aborts.1 noFetch noFetch noFetch noRoster noFetch,
    C7_zero_teams_aborts.2.1 _ noFetch noFetch noFetch noRoster noFetch rfl,
    ?_⟩
  rw [C7_zero_teams_aborts.2.2 (some (.obj [("standings", .arr [c7entry])]))
    noFetch noFetch noFetch noRoster noFetch _ _ _ _ rfl rfl]
  rfl

/-- C5: for a standings payload with N team entries, each of which the
per-entry processing accepts, the team table has exactly N rows, and the
i-th row is exactly the row built from the i-th entry — the table preserves
the standings order. -/
theorem C5_team_table_order (entries : List Json)
    (ppData gbpData fozData : Json → Option Json)
    (h : ∀ e ∈ entries, (processEntry e ppData gbpData fozData).isOk = true) :
    ∃ rows, fetch_teams (some (.obj [("standings", .arr entries)]))
        ppData gbpData fozData = .ok rows ∧
      rows.length = entries.length ∧
      ∀ (i : Nat) (hi : i < entries.length) (hr : i < rows.length),
        processEntry (entries.get ⟨i, hi⟩) ppData gbpData fozData
          = .ok (rows.get ⟨i, hr⟩) := by
  have key : fetch_teams (some (.obj [("standings", .arr entries)]))
      ppData gbpData fozData
      = mapExcept (fun e => processEntry e ppData gbpData fozData) entries := rfl
  obtain ⟨rows, h1, h2, h3⟩ :=
    mapExcept_all_ok (fun e => processEntry e ppData gbpData fozData) entries h
  exact ⟨rows, key.trans h1, h2, h3⟩

/-- First standings entry of the two-team witness payload. -/
def c5e1 : Json := .obj
  [("teamAbbrev", .obj [("default", .str "TOR")]),
   ("teamName", .obj [("default", .str "Maple Leafs")]),
   ("conferenceName", .str "Eastern"),
   ("divisionName", .str "Atlantic"),
   ("teamLogo", .str "tor.svg"),
   ("regulationPlusOtWins", .num 40),
   ("regulationWins", .num 30)]

/-- Second standings entry of the two-team witness payload. -/
def c5e2 : Json := .obj
  [("teamAbbrev", .obj [("default", .str "MTL")]),
   ("teamName", .obj [("default", .str "Canadiens")]),
   ("conferenceName", .str "Eastern"),
   ("divisionName", .str "Atlantic"),
   ("teamLogo", .str "mtl.svg"),
   ("regulationPlusOtWins", .num 35),
   ("regulationWins", .num 28)]

/-- C5 witness: a standings payload with 2 entries produces a team table
with exactly 2 rows. -/
theorem C5_team_table_order_witness :
    (fetch_teams (some (.obj [("standings", .arr [c5e1, c5e2])]))
        noFetch noFetch noFetch).map List.length = .ok 2 := by
  obtain ⟨rows, h1, h2, _⟩ := C5_team_table_order [c5e1, c5e2]
    noFetch noFetch noFetch (by intro e he; fin_cases he <;> rfl)
  rw [h1]
  simpa [Except.map] using h2
